import Mathlib

/-!
Verification of the appointment/payment status reconciliation core of the
Healthcare_Platform repository: the remote status-mutation fallback chains,
the optimistic local updates, the appointment list filtering view-model,
the dashboard aggregation, the status badges and the periodic refresh timer,
as implemented in `AppointmentsList`, `AdminDashboard`, `Reports` and
`PaymentStatusDebug`.
-/

namespace HealthcarePlatform

/- ## String helpers (JS `toLowerCase`, `includes`, capitalization) -/

/-- JS `String.prototype.toLowerCase` (ASCII model): lower each character. -/
def jsToLower (s : String) : String := String.mk (s.toList.map Char.toLower)

/-- The list `needle` occurs at the start of `hay`. -/
def strStarts : List Char → List Char → Bool
  | [], _ => true
  | _ :: _, [] => false
  | c :: cs, d :: ds => c == d && strStarts cs ds

/-- The list `needle` occurs contiguously somewhere in `hay`. -/
def listHasSub (needle : List Char) : List Char → Bool
  | [] => strStarts needle []
  | d :: ds => strStarts needle (d :: ds) || listHasSub needle ds

/-- JS `hay.includes(needle)`. -/
def jsIncludes (hay needle : String) : Bool := listHasSub needle.toList hay.toList

/-- JS `s.charAt(0).toUpperCase() + s.slice(1)` for a present string `s`. -/
def jsCapitalize (s : String) : String :=
  match s.toList with
  | [] => ""
  | c :: cs => String.mk (c.toUpper :: cs)

/- ## Calendar model (JS `Date` over local civil time)

An `Instant` is a local-time point: `day` counts civil days since the epoch
and `ms` is the millisecond offset within that day.  `daysFromCivil` and
`civilFromDays` are the standard proleptic-Gregorian conversions, and
`jsMakeDay` is ECMAScript `MakeDay` (month overflow normalized the way
`setMonth` normalizes it). -/

/-- Days since 1970-01-01 of the civil date `(y, m, d)`, months 1..12. -/
def daysFromCivil (y m d : Int) : Int :=
  let yy : Int := if m ≤ 2 then y - 1 else y
  let era : Int := yy.fdiv 400
  let yoe : Int := yy - era * 400
  let mp : Int := (m + 9).fmod 12
  let doy : Int := (153 * mp + 2).fdiv 5 + d - 1
  let doe : Int := yoe * 365 + yoe.fdiv 4 - yoe.fdiv 100 + doy
  era * 146097 + doe - 719468

/-- Civil date `(y, m, d)` (months 1..12) of a days-since-epoch count. -/
def civilFromDays (z0 : Int) : Int × Int × Int :=
  let z : Int := z0 + 719468
  let era : Int := z.fdiv 146097
  let doe : Int := z - era * 146097
  let yoe : Int := (doe - doe.fdiv 1460 + doe.fdiv 36524 - doe.fdiv 146096).fdiv 365
  let y : Int := yoe + era * 400
  let doy : Int := doe - (365 * yoe + yoe.fdiv 4 - yoe.fdiv 100)
  let mp : Int := (5 * doy + 2).fdiv 153
  let d : Int := doy - (153 * mp + 2).fdiv 5 + 1
  let m : Int := mp + (if mp < 10 then 3 else -9)
  (if m ≤ 2 then y + 1 else y, m, d)

/-- ECMAScript `MakeDay(y, m0, dt)` with a 0-based month `m0` that may
overflow past 11, exactly as `Date.prototype.setMonth` normalizes it. -/
def jsMakeDay (y m0 dt : Int) : Int :=
  let ym : Int := y + m0.fdiv 12
  let mn : Int := m0.fmod 12
  daysFromCivil ym (mn + 1) 1 + (dt - 1)

/-- A local-time instant: civil `day` index since the epoch plus the
millisecond offset `ms` within that day. -/
structure Instant where
  day : Int
  ms : Int
deriving DecidableEq, Repr

/-- Epoch milliseconds of an instant; JS `Date` comparison order. -/
def Instant.epochMs (t : Instant) : Int := t.day * 86400000 + t.ms

/-- JS `setMonth(getMonth() + 1)` applied to a midnight date: same day of
month, next month, normalized by `MakeDay` overflow. -/
def addOneMonth (day : Int) : Int :=
  match civilFromDays day with
  | (y, m, d) => jsMakeDay y ((m - 1) + 1) d

/- ## Data model -/

/-- An appointment record as the frontend consumes it.  `status` and
`payment_status` are optional: the backend may omit them or report values
outside the recognized vocabulary. -/
structure Appointment where
  id : String
  patient_id : String
  doctor_id : String
  appointment_date : Instant
  duration_minutes : Option Int
  notes : Option String
  status : Option String
  payment_status : Option String
  created_at : Instant
deriving DecidableEq, Repr

/-- A user record, as used by the name-resolution cache. -/
structure User where
  id : String
  full_name : String
deriving DecidableEq, Repr

/- ## Name resolution (`getUserName` in `AppointmentsList`) -/

/-- `getUserName(userId, type)`: resolve a user id against the doctors or
patients collection, falling back to `"{type} ID: {userId}"`. -/
def getUserName (doctors patients : List User) (userId ty : String) : String :=
  let userList := if ty == "doctor" then doctors else patients
  match userList.find? (fun u => u.id == userId) with
  | some u => u.full_name
  | none => ty ++ " ID: " ++ userId

/- ## Appointment list filtering (`getFilteredAppointments`) -/

/-- The date-window test of `getFilteredAppointments`: `all` (and any value
outside the vocabulary) matches everything; `today` compares calendar days
(`toDateString` equality); `week`/`month` are inclusive ranges from local
midnight today to midnight seven days / one `setMonth`-normalized month
ahead; `past` is strictly before midnight today. -/
def matchesDateFilter (dateFilter : String) (appointmentDate now : Instant) : Bool :=
  if dateFilter == "all" then true
  else
    let today : Instant := ⟨now.day, 0⟩
    if dateFilter == "today" then appointmentDate.day == today.day
    else if dateFilter == "week" then
      let weekFromNow : Instant := ⟨today.day + 7, 0⟩
      decide (today.epochMs ≤ appointmentDate.epochMs) &&
        decide (appointmentDate.epochMs ≤ weekFromNow.epochMs)
    else if dateFilter == "month" then
      let monthFromNow : Instant := ⟨addOneMonth today.day, 0⟩
      decide (today.epochMs ≤ appointmentDate.epochMs) &&
        decide (appointmentDate.epochMs ≤ monthFromNow.epochMs)
    else if dateFilter == "past" then
      decide (appointmentDate.epochMs < today.epochMs)
    else true

/-- `getFilteredAppointments()` of `AppointmentsList`: keep the appointments
whose doctor name, patient name or notes contain the search term
case-insensitively, whose lifecycle status passes the status filter, and
whose date passes the date filter. -/
def getFilteredAppointments (doctors patients : List User)
    (appointments : List Appointment)
    (searchTerm statusFilter dateFilter : String) (now : Instant) :
    List Appointment :=
  appointments.filter fun appointment =>
    let matchesSearch :=
      jsIncludes (jsToLower (getUserName doctors patients appointment.doctor_id "doctor"))
          (jsToLower searchTerm)
      || jsIncludes (jsToLower (getUserName doctors patients appointment.patient_id "patient"))
          (jsToLower searchTerm)
      || (match appointment.notes with
          | some n => jsIncludes (jsToLower n) (jsToLower searchTerm)
          | none => false)
    let matchesStatus := statusFilter == "all" || appointment.status == some statusFilter
    let matchesDate := matchesDateFilter dateFilter appointment.appointment_date now
    matchesSearch && matchesStatus && matchesDate

/-- Case-insensitive substring test, as the specification words it. -/
def ciSubstr (term text : String) : Bool := jsIncludes (jsToLower text) (jsToLower term)

/-- The search rule as the specification states it: the empty term always
matches; otherwise the term must be a case-insensitive substring of the
doctor display name, the patient display name or the notes text. -/
def specSearchOk (doctors patients : List User) (searchTerm : String)
    (a : Appointment) : Bool :=
  searchTerm == ""
    || ciSubstr searchTerm (getUserName doctors patients a.doctor_id "doctor")
    || ciSubstr searchTerm (getUserName doctors patients a.patient_id "patient")
    || (match a.notes with
        | some n => ciSubstr searchTerm n
        | none => false)

/-- The date rule as the specification states it, over its five filter
values; values outside the vocabulary are not part of the stated rule. -/
def specDateOk (dateFilter : String) (aptDate now : Instant) : Bool :=
  let t0 : Instant := ⟨now.day, 0⟩
  if dateFilter == "all" then true
  else if dateFilter == "today" then aptDate.day == now.day
  else if dateFilter == "week" then
    decide (t0.epochMs ≤ aptDate.epochMs) &&
      decide (aptDate.epochMs ≤ (Instant.mk (t0.day + 7) 0).epochMs)
  else if dateFilter == "month" then
    decide (t0.epochMs ≤ aptDate.epochMs) &&
      decide (aptDate.epochMs ≤ (Instant.mk (addOneMonth t0.day) 0).epochMs)
  else if dateFilter == "past" then
    decide (aptDate.epochMs < t0.epochMs)
  else false

/-- The visibility rule exactly as the specification states it: the
conjunction of the search rule, the status rule and the date rule. -/
def specVisible (doctors patients : List User)
    (searchTerm statusFilter dateFilter : String) (now : Instant)
    (a : Appointment) : Bool :=
  specSearchOk doctors patients searchTerm a
    && (statusFilter == "all" || a.status == some statusFilter)
    && specDateOk dateFilter a.appointment_date now

/- ## Status badges (view-model display fallbacks) -/

/-- The `color` class chosen by `getStatusBadge` of `AppointmentsList`:
`statusConfig[status] || statusConfig.pending`. -/
def statusBadgeColor (status : Option String) : String :=
  match status with
  | some "scheduled" => "bg-blue-100 text-blue-800"
  | some "completed" => "bg-green-100 text-green-800"
  | some "cancelled" => "bg-red-100 text-red-800"
  | some "pending" => "bg-yellow-100 text-yellow-800"
  | _ => "bg-yellow-100 text-yellow-800"

/-- The text rendered by `getStatusBadge` of `AppointmentsList`:
`status?.charAt(0).toUpperCase() + status?.slice(1)`.  When `status` is
absent both optional chains yield `undefined`, `undefined + undefined` is
`NaN`, and React renders it as the string `NaN`. -/
def getStatusBadgeText (status : Option String) : String :=
  match status with
  | some s => jsCapitalize s
  | none => "NaN"

/-- The class chosen by `getPaymentBadge` of `AppointmentsList` (and by
`getPaymentStatusBadge` of `AdminDashboard`):
`classes[paymentStatus] || 'bg-gray-100 text-gray-800'`. -/
def paymentBadgeClass (paymentStatus : Option String) : String :=
  match paymentStatus with
  | some "pending" => "bg-yellow-100 text-yellow-800"
  | some "paid" => "bg-green-100 text-green-800"
  | some "overdue" => "bg-red-100 text-red-800"
  | _ => "bg-gray-100 text-gray-800"

/-- The text rendered by `getPaymentBadge` of `AppointmentsList`:
`paymentStatus?.charAt(0).toUpperCase() + paymentStatus?.slice(1) || 'Pending'`.
An absent value yields falsy `NaN` and an empty string is falsy, so both
fall back to `Pending`. -/
def getPaymentBadgeText (paymentStatus : Option String) : String :=
  match paymentStatus with
  | some s => if s == "" then "Pending" else jsCapitalize s
  | none => "Pending"

/-- The text rendered by `getPaymentStatusBadge` of `AdminDashboard`: the
same expression with fallback literal `'Unknown'`. -/
def getPaymentStatusBadgeText (paymentStatus : Option String) : String :=
  match paymentStatus with
  | some s => if s == "" then "Unknown" else jsCapitalize s
  | none => "Unknown"

/- ## Remote status mutators (fallback chains) -/

/-- HTTP verbs used by the chains. -/
inductive RMethod
  | put
  | patch
deriving DecidableEq, Repr

/-- Routes used by the chains. -/
inductive RPath
  | paymentStatusOf (id : String)
  | appointment (id : String)
deriving DecidableEq, Repr

/-- Where the mutated field travels: query parameter or request body. -/
inductive RPayload
  | queryParam (field value : String)
  | bodyField (field value : String)
deriving DecidableEq, Repr

/-- One network call of the transport collaborator. -/
structure RemoteCall where
  method : RMethod
  path : RPath
  payload : RPayload
deriving DecidableEq, Repr

/-- Step 1 of the payment chain: `PATCH /appointments/{id}/payment-status`
with `payment_status` as a query parameter. -/
def payStep1 (id ps : String) : RemoteCall :=
  ⟨.patch, .paymentStatusOf id, .queryParam "payment_status" ps⟩

/-- Step 2 of the admin payment chain: `PUT /appointments/{id}` with
`payment_status` in the body. -/
def payStep2 (id ps : String) : RemoteCall :=
  ⟨.put, .appointment id, .bodyField "payment_status" ps⟩

/-- Step 3 of the admin payment chain (step 2 of the list chain):
`PATCH /appointments/{id}` with `payment_status` in the body. -/
def payStep3 (id ps : String) : RemoteCall :=
  ⟨.patch, .appointment id, .bodyField "payment_status" ps⟩

/-- The single lifecycle-status call: `PUT /appointments/{id}` with
`status` as a query parameter. -/
def lifecycleStep (id st : String) : RemoteCall :=
  ⟨.put, .appointment id, .queryParam "status" st⟩

/-- A user-visible toast notification. -/
inductive Toast
  | success (msg : String)
  | error (msg : String)
  | info (msg : String)
deriving DecidableEq, Repr

/-- How a mutator run ended: a real remote success at some chain step, a
local-only simulated success, or a surfaced failure. -/
inductive MutOutcome
  | remoteSuccess (step : Nat)
  | simulated
  | failed
deriving DecidableEq, Repr

/-- What a mutator run produced: the calls attempted in order, the outcome,
the toasts emitted in order, and the local appointment collection after the
handler settles. -/
structure MutResult where
  trace : List RemoteCall
  outcome : MutOutcome
  toasts : List Toast
  appointments : List Appointment
deriving Repr

/-- The status axis being written locally. -/
inductive StatusField
  | lifecycle
  | payment
deriving DecidableEq, Repr

/-- Replace one status field of an appointment, leaving the rest intact. -/
def setStatusField (a : Appointment) (f : StatusField) (v : String) : Appointment :=
  match f with
  | .lifecycle => { a with status := some v }
  | .payment => { a with payment_status := some v }

/-- `applyLocalStatus(appointmentId, field, value)` — the optimistic
reconciler's replace-by-id map, as inlined at each mutator's terminal
fallback: `appointments.map(apt => apt.id === appointmentId
? { ...apt, [field]: value } : apt)`. -/
def applyLocalStatus (appointments : List Appointment) (appointmentId : String)
    (f : StatusField) (v : String) : List Appointment :=
  appointments.map fun apt =>
    if apt.id == appointmentId then setStatusField apt f v else apt

/-- The success toast text `Payment status updated to {ps}`. -/
def paySuccessMsg (ps : String) : String := "Payment status updated to " ++ ps

/-- `updatePaymentStatus` of `AdminDashboard`: three-step fallback chain
(PATCH query-param, PUT body, PATCH body); on a remote success the
collection is refetched (`fetchDashboardData`, modelled by the `refetched`
argument); when all three fail it emits an error toast with the transport's
detail (abstracted here to the `'Server error'` default), applies the
local-only demo update and emits a `(demo mode)` success toast. -/
def updatePaymentStatusAdmin (transport : RemoteCall → Bool)
    (recentAppointments refetched : List Appointment)
    (appointmentId paymentStatus : String) : MutResult :=
  let s1 := payStep1 appointmentId paymentStatus
  if transport s1 then
    { trace := [s1], outcome := .remoteSuccess 1,
      toasts := [.success (paySuccessMsg paymentStatus)], appointments := refetched }
  else
    let s2 := payStep2 appointmentId paymentStatus
    if transport s2 then
      { trace := [s1, s2], outcome := .remoteSuccess 2,
        toasts := [.success (paySuccessMsg paymentStatus)], appointments := refetched }
    else
      let s3 := payStep3 appointmentId paymentStatus
      if transport s3 then
        { trace := [s1, s2, s3], outcome := .remoteSuccess 3,
          toasts := [.success (paySuccessMsg paymentStatus)], appointments := refetched }
      else
        { trace := [s1, s2, s3], outcome := .simulated,
          toasts := [.error "Failed to update payment status: Server error",
                     .success (paySuccessMsg paymentStatus ++ " (demo mode)")],
          appointments :=
            applyLocalStatus recentAppointments appointmentId .payment paymentStatus }

/-- `updatePaymentStatus` of `AppointmentsList`: a two-step chain — the
primary PATCH query-param call, then directly `PATCH /appointments/{id}`
with the field in the body; its terminal fallback applies the demo update
and emits only the `(demo mode)` success toast. -/
def updatePaymentStatusList (transport : RemoteCall → Bool)
    (appointments refetched : List Appointment)
    (appointmentId paymentStatus : String) : MutResult :=
  let s1 := payStep1 appointmentId paymentStatus
  if transport s1 then
    { trace := [s1], outcome := .remoteSuccess 1,
      toasts := [.success (paySuccessMsg paymentStatus)], appointments := refetched }
  else
    let s2 := payStep3 appointmentId paymentStatus
    if transport s2 then
      { trace := [s1, s2], outcome := .remoteSuccess 2,
        toasts := [.success (paySuccessMsg paymentStatus)], appointments := refetched }
    else
      { trace := [s1, s2], outcome := .simulated,
        toasts := [.success (paySuccessMsg paymentStatus ++ " (demo mode)")],
        appointments :=
          applyLocalStatus appointments appointmentId .payment paymentStatus }

/-- `updateAppointmentStatus` of `AppointmentsList`: a single
`PUT /appointments/{id}?status=...` attempt; success refetches and toasts
success, failure emits an error toast and leaves the collection alone. -/
def updateAppointmentStatus (transport : RemoteCall → Bool)
    (appointments refetched : List Appointment)
    (appointmentId status : String) : MutResult :=
  let c := lifecycleStep appointmentId status
  if transport c then
    { trace := [c], outcome := .remoteSuccess 1,
      toasts := [.success ("Appointment " ++ status ++ " successfully")],
      appointments := refetched }
  else
    { trace := [c], outcome := .failed,
      toasts := [.error "Failed to update appointment status"],
      appointments := appointments }

/- ## Dashboard aggregation -/

/-- Result of one constituent fetch: a payload or a failure. -/
inductive FetchResult (α : Type)
  | ok (value : α)
  | fail
deriving DecidableEq, Repr

/-- The summary statistics payload of `/dashboard/stats`, as the admin
dashboard renders it. -/
structure DashStats where
  total_users : Int
  total_doctors : Int
  total_patients : Int
  total_appointments : Int
deriving DecidableEq, Repr

/-- The admin dashboard's state slices touched by `fetchDashboardData`.
`stats = none` models the initial empty object. -/
structure AdminDashState where
  stats : Option DashStats
  recentUsers : List User
  recentAppointments : List Appointment
  toasts : List Toast
deriving DecidableEq, Repr

/-- `fetchDashboardData` of `AdminDashboard`: the three fetches are joined
with `Promise.all` inside one `try`; only when all three resolve are the
three sections written (users and appointments truncated to 5); if any one
rejects, the single `catch` toasts one error and writes nothing. -/
def fetchDashboardData (statsRes : FetchResult DashStats)
    (usersRes : FetchResult (List User))
    (appointmentsRes : FetchResult (List Appointment))
    (s : AdminDashState) : AdminDashState :=
  match statsRes, usersRes, appointmentsRes with
  | .ok st, .ok us, .ok ap =>
      { s with stats := some st, recentUsers := us.take 5,
               recentAppointments := ap.take 5 }
  | _, _, _ =>
      { s with toasts := s.toasts ++ [.error "Failed to load dashboard data"] }

/-- The `AppointmentsList` state slices written by its three mount-time
fetches. -/
structure ListState where
  appointments : List Appointment
  doctors : List User
  patients : List User
  toasts : List Toast
deriving DecidableEq, Repr

/-- `fetchAppointments` of `AppointmentsList`: its own try/catch; failure
toasts an error and leaves the collection alone. -/
def fetchAppointmentsRun (r : FetchResult (List Appointment)) (s : ListState) :
    ListState :=
  match r with
  | .ok ap => { s with appointments := ap }
  | .fail => { s with toasts := s.toasts ++ [.error "Failed to load appointments"] }

/-- `fetchDoctors` of `AppointmentsList`: failure only logs to the console. -/
def fetchDoctorsRun (r : FetchResult (List User)) (s : ListState) : ListState :=
  match r with
  | .ok ds => { s with doctors := ds }
  | .fail => s

/-- `fetchPatients` of `AppointmentsList`: failure only logs to the console. -/
def fetchPatientsRun (r : FetchResult (List User)) (s : ListState) : ListState :=
  match r with
  | .ok ps => { s with patients := ps }
  | .fail => s

/-- The mount effect of `AppointmentsList`: the three independent fetches
each settle into their own section. -/
def listMountRefresh (ra : FetchResult (List Appointment))
    (rd rp : FetchResult (List User)) (s : ListState) : ListState :=
  fetchPatientsRun rp (fetchDoctorsRun rd (fetchAppointmentsRun ra s))

/- ## Summary tallies (`AppointmentsList` summary cards) -/

/-- The four summary-card numbers. -/
structure StatusTally where
  scheduled : Nat
  completed : Nat
  cancelled : Nat
  pendingPayment : Nat
deriving DecidableEq, Repr

/-- The summary cards as rendered: each count filters the given collection.
In the source the collection passed is `filteredAppointments`. -/
def summaryStats (filtered : List Appointment) : StatusTally :=
  { scheduled := (filtered.filter (fun a => a.status == some "scheduled")).length
    completed := (filtered.filter (fun a => a.status == some "completed")).length
    cancelled := (filtered.filter (fun a => a.status == some "cancelled")).length
    pendingPayment :=
      (filtered.filter (fun a => a.payment_status == some "pending")).length }

/-- The summary block of one `AppointmentsList` render:
`filteredAppointments = getFilteredAppointments()` feeds the cards. -/
def renderedSummary (doctors patients : List User) (appts : List Appointment)
    (searchTerm statusFilter dateFilter : String) (now : Instant) : StatusTally :=
  summaryStats
    (getFilteredAppointments doctors patients appts searchTerm statusFilter dateFilter now)

/- ## Periodic refresh timer (`Reports` real-time mode)

`setInterval`/`clearInterval` are modelled as a world of live interval
timers with fresh ids, and the React effect protocol (run the cleanup of
the previous effect before re-running it with new dependencies, and once
more at unmount) drives the effect translated from the source:
`if (realTimeMode) interval = setInterval(fetch-and-toast, 30000);
return () => clearInterval(interval)`. -/

/-- A live interval timer: its id and its period in milliseconds. -/
structure IntervalTimer where
  tid : Nat
  periodMs : Nat
deriving DecidableEq, Repr

/-- The timer world: the next fresh id and the live intervals. -/
structure TimerWorld where
  nextId : Nat
  live : List IntervalTimer
deriving DecidableEq, Repr

/-- `setInterval(cb, periodMs)`: register a live interval, return its id. -/
def setIntervalW (periodMs : Nat) (w : TimerWorld) : TimerWorld × Nat :=
  ({ nextId := w.nextId + 1, live := w.live ++ [⟨w.nextId, periodMs⟩] }, w.nextId)

/-- `clearInterval(tid)`: remove the interval; clearing `undefined` is a
no-op. -/
def clearIntervalW (tid : Option Nat) (w : TimerWorld) : TimerWorld :=
  match tid with
  | some t => { w with live := w.live.filter (fun iv => iv.tid ≠ t) }
  | none => w

/-- The body of the real-time `useEffect` of `Reports`: create a 30-second
interval only while `realTimeMode` holds, and remember it for the cleanup. -/
def realtimeEffect (realTimeMode : Bool) (w : TimerWorld) : TimerWorld × Option Nat :=
  if realTimeMode then
    let r := setIntervalW 30000 w
    (r.1, some r.2)
  else (w, none)

/-- React's dependency-driven reruns: before each rerun the previous
cleanup (`clearInterval(interval)`) fires, then the effect body runs with
the new `realTimeMode` value. -/
def runModes (w : TimerWorld) (tid : Option Nat) :
    List Bool → TimerWorld × Option Nat
  | [] => (w, tid)
  | b :: bs =>
      let w1 := clearIntervalW tid w
      let r := realtimeEffect b w1
      runModes r.1 r.2 bs

/-- A whole mounted lifetime of the `Reports` view: the successive
`realTimeMode` values seen by the effect, then the unmount cleanup. -/
def mountLifecycle (w : TimerWorld) (modes : List Bool) : TimerWorld :=
  let r := runModes w none modes
  clearIntervalW r.2 r.1

/- ## Concrete fixtures for witnesses and counterexamples -/

/-- Convenient appointment constructor for concrete scenarios. -/
def mkAppt (id st ps : String) : Appointment :=
  { id := id, patient_id := "p1", doctor_id := "d1", appointment_date := ⟨0, 0⟩,
    duration_minutes := none, notes := none, status := some st,
    payment_status := some ps, created_at := ⟨0, 0⟩ }

/-- A transport stub that rejects every request. -/
def failingTransport : RemoteCall → Bool := fun _ => false

/-- A transport stub that fails chain steps 1 and 2 for appointment `a1`
and succeeds on step 3 (`PATCH /appointments/a1` with the field in the
body). -/
def stubPay3Transport : RemoteCall → Bool := fun c => decide (c = payStep3 "a1" "paid")

/-- Initial admin dashboard state: empty stats object, empty lists. -/
def adminState0 : AdminDashState :=
  { stats := none, recentUsers := [], recentAppointments := [], toasts := [] }

/-- A concrete successful `/dashboard/stats` payload. -/
def stats1 : DashStats := ⟨10, 2, 7, 42⟩

/-- Ten appointments: 3 completed, 4 scheduled, 3 cancelled. -/
def tenAppointments : List Appointment :=
  [mkAppt "a1" "completed" "paid", mkAppt "a2" "scheduled" "paid",
   mkAppt "a3" "cancelled" "paid", mkAppt "a4" "completed" "paid",
   mkAppt "a5" "scheduled" "paid", mkAppt "a6" "cancelled" "paid",
   mkAppt "a7" "completed" "paid", mkAppt "a8" "scheduled" "paid",
   mkAppt "a9" "cancelled" "paid", mkAppt "a10" "scheduled" "paid"]

/-- The component's list of live timers created by the effect, as tracked
by its `interval` variable. -/
def optTimer : Option Nat → List IntervalTimer
  | some t => [⟨t, 30000⟩]
  | none => []

/- ## Helper lemmas -/

theorem strStarts_nil (l : List Char) : strStarts [] l = true := by
  cases l <;> rfl

theorem listHasSub_nil (l : List Char) : listHasSub [] l = true := by
  cases l <;> simp [listHasSub, strStarts_nil]

theorem jsIncludes_empty (s : String) : jsIncludes s "" = true := by
  have h : ("" : String).toList = [] := rfl
  simp [jsIncludes, h, listHasSub_nil]

theorem jsToLower_empty : jsToLower "" = "" := by decide

theorem map_self_of_mem {α : Type} (l : List α) (f : α → α)
    (h : ∀ a ∈ l, f a = a) : l.map f = l := by
  induction l with
  | nil => rfl
  | cons x xs ih =>
      simp only [List.map_cons, List.cons.injEq]
      exact ⟨h x (by simp), ih (fun a ha => h a (by simp [ha]))⟩

theorem applyLocalStatus_absent (appointments : List Appointment)
    (appointmentId : String) (f : StatusField) (v : String)
    (h : appointmentId ∉ appointments.map (fun a => a.id)) :
    applyLocalStatus appointments appointmentId f v = appointments := by
  apply map_self_of_mem
  intro a ha
  have hid : ¬ a.id = appointmentId := by
    intro he
    exact h (by exact List.mem_map.mpr ⟨a, ha, he⟩)
  simp [hid]

theorem setStatusField_id (a : Appointment) (f : StatusField) (v : String) :
    (setStatusField a f v).id = a.id := by
  cases f <;> rfl

/- ## Claim C4: exhausted lifecycle chain surfaces failure, local state kept -/

/-- Claim C4: when the single configured remote attempt of the
lifecycle-status mutation fails, the result is a surfaced failure (an error
toast, no success toast, outcome `failed`) and the local appointment
collection is left unchanged. -/
theorem lifecycle_exhausted_failure (transport : RemoteCall → Bool)
    (appointments refetched : List Appointment) (appointmentId status : String)
    (hfail : transport (lifecycleStep appointmentId status) = false) :
    (updateAppointmentStatus transport appointments refetched appointmentId status).outcome
        = MutOutcome.failed
    ∧ (updateAppointmentStatus transport appointments refetched appointmentId status).appointments
        = appointments
    ∧ (updateAppointmentStatus transport appointments refetched appointmentId status).toasts
        = [Toast.error "Failed to update appointment status"]
    ∧ ∀ m, Toast.success m ∉
        (updateAppointmentStatus transport appointments refetched appointmentId status).toasts := by
  simp [updateAppointmentStatus, hfail]

/-- Witness for C4 at a concrete input: an all-failing transport on a
one-appointment collection. -/
theorem lifecycle_exhausted_failure_witness :
    failingTransport (lifecycleStep "a1" "completed") = false
    ∧ ((updateAppointmentStatus failingTransport [mkAppt "a1" "scheduled" "pending"] []
          "a1" "completed").outcome = MutOutcome.failed
      ∧ (updateAppointmentStatus failingTransport [mkAppt "a1" "scheduled" "pending"] []
          "a1" "completed").appointments = [mkAppt "a1" "scheduled" "pending"]
      ∧ (updateAppointmentStatus failingTransport [mkAppt "a1" "scheduled" "pending"] []
          "a1" "completed").toasts = [Toast.error "Failed to update appointment status"]
      ∧ ∀ m, Toast.success m ∉
          (updateAppointmentStatus failingTransport [mkAppt "a1" "scheduled" "pending"] []
            "a1" "completed").toasts) :=
  ⟨rfl, lifecycle_exhausted_failure failingTransport [mkAppt "a1" "scheduled" "pending"] []
      "a1" "completed" rfl⟩

/- ## Claim C5: applyLocalStatus is an immutable replace-by-id map -/

/-- Claim C5: `applyLocalStatus(appointmentId, field, value)` produces a new
collection of the same length in which the appointment at each position is
unchanged when its id differs from the target, and has exactly the named
status field replaced when its id matches; `setStatusField` itself preserves
every other field of the record.  The input collection is a pure value, so
it is never mutated. -/
theorem applyLocalStatus_frame (appointments : List Appointment)
    (appointmentId : String) (f : StatusField) (v : String)
    (i : Nat) (a : Appointment) (hget : appointments[i]? = some a) :
    (applyLocalStatus appointments appointmentId f v).length = appointments.length
    ∧ (a.id ≠ appointmentId →
        (applyLocalStatus appointments appointmentId f v)[i]? = some a)
    ∧ (a.id = appointmentId →
        (applyLocalStatus appointments appointmentId f v)[i]? = some (setStatusField a f v))
    ∧ (∀ b : Appointment,
        (setStatusField b f v).id = b.id
        ∧ (setStatusField b f v).patient_id = b.patient_id
        ∧ (setStatusField b f v).doctor_id = b.doctor_id
        ∧ (setStatusField b f v).appointment_date = b.appointment_date
        ∧ (setStatusField b f v).duration_minutes = b.duration_minutes
        ∧ (setStatusField b f v).notes = b.notes
        ∧ (setStatusField b f v).created_at = b.created_at
        ∧ (f = StatusField.payment →
            (setStatusField b f v).payment_status = some v
            ∧ (setStatusField b f v).status = b.status)
        ∧ (f = StatusField.lifecycle →
            (setStatusField b f v).status = some v
            ∧ (setStatusField b f v).payment_status = b.payment_status)) := by
  refine ⟨by simp [applyLocalStatus], ?_, ?_, ?_⟩
  · intro hne
    simp [applyLocalStatus, List.getElem?_map, hget, hne]
  · intro he
    simp [applyLocalStatus, List.getElem?_map, hget, he]
  · intro b
    cases f <;> simp [setStatusField]

/-- Witness for C5 at a concrete input: replacing `payment_status` of the
only appointment. -/
theorem applyLocalStatus_frame_witness :
    ([mkAppt "a1" "scheduled" "pending"] : List Appointment)[0]?
        = some (mkAppt "a1" "scheduled" "pending")
    ∧ ((applyLocalStatus [mkAppt "a1" "scheduled" "pending"] "a1"
          StatusField.payment "paid").length
        = ([mkAppt "a1" "scheduled" "pending"] : List Appointment).length
      ∧ ((mkAppt "a1" "scheduled" "pending").id ≠ "a1" →
          (applyLocalStatus [mkAppt "a1" "scheduled" "pending"] "a1"
            StatusField.payment "paid")[0]? = some (mkAppt "a1" "scheduled" "pending"))
      ∧ ((mkAppt "a1" "scheduled" "pending").id = "a1" →
          (applyLocalStatus [mkAppt "a1" "scheduled" "pending"] "a1"
            StatusField.payment "paid")[0]?
            = some (setStatusField (mkAppt "a1" "scheduled" "pending")
                StatusField.payment "paid"))
      ∧ (∀ b : Appointment,
          (setStatusField b StatusField.payment "paid").id = b.id
          ∧ (setStatusField b StatusField.payment "paid").patient_id = b.patient_id
          ∧ (setStatusField b StatusField.payment "paid").doctor_id = b.doctor_id
          ∧ (setStatusField b StatusField.payment "paid").appointment_date = b.appointment_date
          ∧ (setStatusField b StatusField.payment "paid").duration_minutes = b.duration_minutes
          ∧ (setStatusField b StatusField.payment "paid").notes = b.notes
          ∧ (setStatusField b StatusField.payment "paid").created_at = b.created_at
          ∧ (StatusField.payment = StatusField.payment →
              (setStatusField b StatusField.payment "paid").payment_status = some "paid"
              ∧ (setStatusField b StatusField.payment "paid").status = b.status)
          ∧ (StatusField.payment = StatusField.lifecycle →
              (setStatusField b StatusField.payment "paid").status = some "paid"
              ∧ (setStatusField b StatusField.payment "paid").payment_status
                  = b.payment_status))) :=
  ⟨rfl, applyLocalStatus_frame [mkAppt "a1" "scheduled" "pending"] "a1"
      StatusField.payment "paid" 0 (mkAppt "a1" "scheduled" "pending") rfl⟩

/- ## Claim C1: exhausted payment chain degrades to labeled simulated success -/

/-- Claim C1: for any appointment id present in the local collection and any
payment-status value, when every remote attempt of the payment chain fails,
both payment-status mutators return the simulated-success outcome (never the
failure outcome), apply a local-only update so that every appointment with
the targeted id shows the requested `payment_status` (and such a record
exists), and end their acknowledgments with a success toast labeled
`(demo mode)`. -/
theorem payment_exhausted_simulated (transport : RemoteCall → Bool)
    (appointments refetched : List Appointment) (appointmentId paymentStatus : String)
    (hps : paymentStatus ∈ (["pending", "paid", "overdue"] : List String))
    (h1 : transport (payStep1 appointmentId paymentStatus) = false)
    (h2 : transport (payStep2 appointmentId paymentStatus) = false)
    (h3 : transport (payStep3 appointmentId paymentStatus) = false)
    (hmem : appointmentId ∈ appointments.map (fun a => a.id)) :
    ((updatePaymentStatusAdmin transport appointments refetched appointmentId
        paymentStatus).outcome = MutOutcome.simulated
      ∧ (updatePaymentStatusAdmin transport appointments refetched appointmentId
          paymentStatus).outcome ≠ MutOutcome.failed
      ∧ (∀ a ∈ (updatePaymentStatusAdmin transport appointments refetched appointmentId
            paymentStatus).appointments,
          a.id = appointmentId → a.payment_status = some paymentStatus)
      ∧ (∃ a ∈ (updatePaymentStatusAdmin transport appointments refetched appointmentId
            paymentStatus).appointments,
          a.id = appointmentId ∧ a.payment_status = some paymentStatus)
      ∧ (updatePaymentStatusAdmin transport appointments refetched appointmentId
          paymentStatus).toasts.getLast?
        = some (Toast.success (paySuccessMsg paymentStatus ++ " (demo mode)")))
    ∧ ((updatePaymentStatusList transport appointments refetched appointmentId
          paymentStatus).outcome = MutOutcome.simulated
      ∧ (updatePaymentStatusList transport appointments refetched appointmentId
          paymentStatus).outcome ≠ MutOutcome.failed
      ∧ (∀ a ∈ (updatePaymentStatusList transport appointments refetched appointmentId
            paymentStatus).appointments,
          a.id = appointmentId → a.payment_status = some paymentStatus)
      ∧ (∃ a ∈ (updatePaymentStatusList transport appointments refetched appointmentId
            paymentStatus).appointments,
          a.id = appointmentId ∧ a.payment_status = some paymentStatus)
      ∧ (updatePaymentStatusList transport appointments refetched appointmentId
          paymentStatus).toasts.getLast?
        = some (Toast.success (paySuccessMsg paymentStatus ++ " (demo mode)"))) := by
  have hall : ∀ a ∈ applyLocalStatus appointments appointmentId StatusField.payment
      paymentStatus, a.id = appointmentId → a.payment_status = some paymentStatus := by
    intro a ha he
    rcases List.mem_map.mp ha with ⟨b, _, hb⟩
    by_cases hid : b.id == appointmentId
    · rw [← hb]
      simp [hid, setStatusField]
    · rw [← hb] at he
      simp [hid] at he
      exact absurd he (by simpa using hid)
  have hex : ∃ a ∈ applyLocalStatus appointments appointmentId StatusField.payment
      paymentStatus, a.id = appointmentId ∧ a.payment_status = some paymentStatus := by
    rcases List.mem_map.mp hmem with ⟨b, hb, hbid⟩
    refine ⟨setStatusField b StatusField.payment paymentStatus, ?_, ?_, ?_⟩
    · exact List.mem_map.mpr ⟨b, hb, by simp [hbid, setStatusField]⟩
    · simpa [setStatusField] using hbid
    · simp [setStatusField]
  constructor
  · simp only [updatePaymentStatusAdmin, h1, h2, h3, if_false]
    exact ⟨rfl, by simp, hall, hex, by simp [List.getLast?]⟩
  · simp only [updatePaymentStatusList, h1, h3, if_false]
    exact ⟨rfl, by simp, hall, hex, by simp [List.getLast?]⟩

/-- Witness for C1 at a concrete input: an all-failing transport, the
one-appointment collection holding `a1`, and the request `paid`. -/
theorem payment_exhausted_simulated_witness :
    ("paid" ∈ (["pending", "paid", "overdue"] : List String))
    ∧ failingTransport (payStep1 "a1" "paid") = false
    ∧ failingTransport (payStep2 "a1" "paid") = false
    ∧ failingTransport (payStep3 "a1" "paid") = false
    ∧ "a1" ∈ ([mkAppt "a1" "scheduled" "pending"] : List Appointment).map (fun a => a.id)
    ∧ (updatePaymentStatusAdmin failingTransport [mkAppt "a1" "scheduled" "pending"] []
        "a1" "paid").outcome = MutOutcome.simulated
    ∧ (updatePaymentStatusList failingTransport [mkAppt "a1" "scheduled" "pending"] []
        "a1" "paid").toasts.getLast?
      = some (Toast.success (paySuccessMsg "paid" ++ " (demo mode)")) :=
  ⟨by decide, rfl, rfl, rfl, by decide,
   (payment_exhausted_simulated failingTransport [mkAppt "a1" "scheduled" "pending"] []
      "a1" "paid" (by decide) rfl rfl rfl (by decide)).1.1,
   (payment_exhausted_simulated failingTransport [mkAppt "a1" "scheduled" "pending"] []
      "a1" "paid" (by decide) rfl rfl rfl (by decide)).2.2.2.2.2⟩

/- ## Claim C10: simulated success is issued even for an unknown id -/

/-- Claim C10: when every remote attempt fails and the targeted id does not
occur in the local collection, both payment mutators leave the collection
exactly as it was, yet still end in the simulated-success outcome with the
`(demo mode)` success toast. -/
theorem payment_simulated_unknown_id (transport : RemoteCall → Bool)
    (appointments refetched : List Appointment) (appointmentId paymentStatus : String)
    (h1 : transport (payStep1 appointmentId paymentStatus) = false)
    (h2 : transport (payStep2 appointmentId paymentStatus) = false)
    (h3 : transport (payStep3 appointmentId paymentStatus) = false)
    (habs : appointmentId ∉ appointments.map (fun a => a.id)) :
    (updatePaymentStatusAdmin transport appointments refetched appointmentId
        paymentStatus).appointments = appointments
    ∧ (updatePaymentStatusAdmin transport appointments refetched appointmentId
        paymentStatus).outcome = MutOutcome.simulated
    ∧ Toast.success (paySuccessMsg paymentStatus ++ " (demo mode)")
        ∈ (updatePaymentStatusAdmin transport appointments refetched appointmentId
            paymentStatus).toasts
    ∧ (updatePaymentStatusList transport appointments refetched appointmentId
        paymentStatus).appointments = appointments
    ∧ (updatePaymentStatusList transport appointments refetched appointmentId
        paymentStatus).outcome = MutOutcome.simulated
    ∧ Toast.success (paySuccessMsg paymentStatus ++ " (demo mode)")
        ∈ (updatePaymentStatusList transport appointments refetched appointmentId
            paymentStatus).toasts := by
  have hkeep := applyLocalStatus_absent appointments appointmentId
    StatusField.payment paymentStatus habs
  refine ⟨?_, ?_, ?_, ?_, ?_, ?_⟩ <;>
    simp [updatePaymentStatusAdmin, updatePaymentStatusList, h1, h2, h3, hkeep]

/-- Witness for C10 at a concrete input: the collection holds only `a2`,
while the mutation targets the unknown id `zz`. -/
theorem payment_simulated_unknown_id_witness :
    failingTransport (payStep1 "zz" "paid") = false
    ∧ failingTransport (payStep2 "zz" "paid") = false
    ∧ failingTransport (payStep3 "zz" "paid") = false
    ∧ "zz" ∉ ([mkAppt "a2" "scheduled" "pending"] : List Appointment).map (fun a => a.id)
    ∧ (updatePaymentStatusAdmin failingTransport [mkAppt "a2" "scheduled" "pending"] []
        "zz" "paid").appointments = [mkAppt "a2" "scheduled" "pending"]
    ∧ (updatePaymentStatusList failingTransport [mkAppt "a2" "scheduled" "pending"] []
        "zz" "paid").outcome = MutOutcome.simulated :=
  ⟨rfl, rfl, rfl, by decide,
   (payment_simulated_unknown_id failingTransport [mkAppt "a2" "scheduled" "pending"] []
      "zz" "paid" rfl rfl rfl (by decide)).1,
   (payment_simulated_unknown_id failingTransport [mkAppt "a2" "scheduled" "pending"] []
      "zz" "paid" rfl rfl rfl (by decide)).2.2.2.2.1⟩

/- ## Claim C2: chain attempt order and stop-on-success discipline -/

/-- Counterexample to C2 as stated: the `AppointmentsList` payment mutator,
driven by a transport that fails shapes 1 (PATCH with query param) and 2
(PUT with body) and succeeds on shape 3 (PATCH with body), attempts only
two request shapes — the PUT shape is never attempted — so it does not
attempt "exactly the three request shapes". -/
theorem payment_chain_counterexample :
    (updatePaymentStatusList stubPay3Transport [] [] "a1" "paid").trace
        = [payStep1 "a1" "paid", payStep3 "a1" "paid"]
    ∧ (updatePaymentStatusList stubPay3Transport [] [] "a1" "paid").trace.length = 2
    ∧ payStep2 "a1" "paid" ∉ (updatePaymentStatusList stubPay3Transport [] [] "a1" "paid").trace
    ∧ (updatePaymentStatusList stubPay3Transport [] [] "a1" "paid").trace
        ≠ [payStep1 "a1" "paid", payStep2 "a1" "paid", payStep3 "a1" "paid"]
    ∧ stubPay3Transport (payStep1 "a1" "paid") = false
    ∧ stubPay3Transport (payStep2 "a1" "paid") = false
    ∧ stubPay3Transport (payStep3 "a1" "paid") = true := by
  decide

/-- Claim C2 (amended): the `AdminDashboard` payment mutator attempts the
three shapes in fixed priority order, advancing only when the previous step
failed and never attempting a step after a success; the `AppointmentsList`
mutator follows the same discipline over its two-shape chain (1 then 3), so
a transport failing shapes 1 and 2 and succeeding on shape 3 sees exactly
attempts 1, 2, 3 from the admin mutator and exactly attempts 1, 3 from the
list mutator. -/
theorem payment_chain_order (transport : RemoteCall → Bool)
    (appointments refetched : List Appointment) (appointmentId paymentStatus : String) :
    (((updatePaymentStatusAdmin transport appointments refetched appointmentId
          paymentStatus).trace = [payStep1 appointmentId paymentStatus]
        ∧ (updatePaymentStatusAdmin transport appointments refetched appointmentId
            paymentStatus).outcome = MutOutcome.remoteSuccess 1
        ∧ transport (payStep1 appointmentId paymentStatus) = true)
      ∨ ((updatePaymentStatusAdmin transport appointments refetched appointmentId
            paymentStatus).trace
          = [payStep1 appointmentId paymentStatus, payStep2 appointmentId paymentStatus]
        ∧ (updatePaymentStatusAdmin transport appointments refetched appointmentId
            paymentStatus).outcome = MutOutcome.remoteSuccess 2
        ∧ transport (payStep1 appointmentId paymentStatus) = false
        ∧ transport (payStep2 appointmentId paymentStatus) = true)
      ∨ ((updatePaymentStatusAdmin transport appointments refetched appointmentId
            paymentStatus).trace
          = [payStep1 appointmentId paymentStatus, payStep2 appointmentId paymentStatus,
             payStep3 appointmentId paymentStatus]
        ∧ (updatePaymentStatusAdmin transport appointments refetched appointmentId
            paymentStatus).outcome = MutOutcome.remoteSuccess 3
        ∧ transport (payStep1 appointmentId paymentStatus) = false
        ∧ transport (payStep2 appointmentId paymentStatus) = false
        ∧ transport (payStep3 appointmentId paymentStatus) = true)
      ∨ ((updatePaymentStatusAdmin transport appointments refetched appointmentId
            paymentStatus).trace
          = [payStep1 appointmentId paymentStatus, payStep2 appointmentId paymentStatus,
             payStep3 appointmentId paymentStatus]
        ∧ (updatePaymentStatusAdmin transport appointments refetched appointmentId
            paymentStatus).outcome = MutOutcome.simulated
        ∧ transport (payStep1 appointmentId paymentStatus) = false
        ∧ transport (payStep2 appointmentId paymentStatus) = false
        ∧ transport (payStep3 appointmentId paymentStatus) = false))
    ∧ (((updatePaymentStatusList transport appointments refetched appointmentId
          paymentStatus).trace = [payStep1 appointmentId paymentStatus]
        ∧ transport (payStep1 appointmentId paymentStatus) = true)
      ∨ ((updatePaymentStatusList transport appointments refetched appointmentId
            paymentStatus).trace
          = [payStep1 appointmentId paymentStatus, payStep3 appointmentId paymentStatus]
        ∧ transport (payStep1 appointmentId paymentStatus) = false))
    ∧ (transport (payStep1 appointmentId paymentStatus) = false →
       transport (payStep2 appointmentId paymentStatus) = false →
       transport (payStep3 appointmentId paymentStatus) = true →
       (updatePaymentStatusAdmin transport appointments refetched appointmentId
          paymentStatus).trace
         = [payStep1 appointmentId paymentStatus, payStep2 appointmentId paymentStatus,
            payStep3 appointmentId paymentStatus]
       ∧ (updatePaymentStatusAdmin transport appointments refetched appointmentId
           paymentStatus).outcome = MutOutcome.remoteSuccess 3
       ∧ (updatePaymentStatusList transport appointments refetched appointmentId
           paymentStatus).trace
         = [payStep1 appointmentId paymentStatus, payStep3 appointmentId paymentStatus]) := by
  refine ⟨?_, ?_, ?_⟩
  · cases h1 : transport (payStep1 appointmentId paymentStatus)
    · cases h2 : transport (payStep2 appointmentId paymentStatus)
      · cases h3 : transport (payStep3 appointmentId paymentStatus)
        · exact Or.inr (Or.inr (Or.inr
            (by simp [updatePaymentStatusAdmin, h1, h2, h3])))
        · exact Or.inr (Or.inr (Or.inl
            (by simp [updatePaymentStatusAdmin, h1, h2, h3])))
      · exact Or.inr (Or.inl (by simp [updatePaymentStatusAdmin, h1, h2]))
    · exact Or.inl (by simp [updatePaymentStatusAdmin, h1])
  · cases h1 : transport (payStep1 appointmentId paymentStatus)
    · cases h3 : transport (payStep3 appointmentId paymentStatus)
      · exact Or.inr (by simp [updatePaymentStatusList, h1, h3])
      · exact Or.inr (by simp [updatePaymentStatusList, h1, h3])
    · exact Or.inl (by simp [updatePaymentStatusList, h1])
  · intro h1 h2 h3
    refine ⟨?_, ?_, ?_⟩ <;>
      simp [updatePaymentStatusAdmin, updatePaymentStatusList, h1, h2, h3]

/-- Witness for C2's amended stub scenario at a concrete input. -/
theorem payment_chain_order_witness :
    stubPay3Transport (payStep1 "a1" "paid") = false
    ∧ stubPay3Transport (payStep2 "a1" "paid") = false
    ∧ stubPay3Transport (payStep3 "a1" "paid") = true
    ∧ ((updatePaymentStatusAdmin stubPay3Transport [] [] "a1" "paid").trace
        = [payStep1 "a1" "paid", payStep2 "a1" "paid", payStep3 "a1" "paid"]
      ∧ (updatePaymentStatusAdmin stubPay3Transport [] [] "a1" "paid").outcome
        = MutOutcome.remoteSuccess 3
      ∧ (updatePaymentStatusList stubPay3Transport [] [] "a1" "paid").trace
        = [payStep1 "a1" "paid", payStep3 "a1" "paid"]) :=
  ⟨by decide, by decide, by decide,
   (payment_chain_order stubPay3Transport [] [] "a1" "paid").2.2
      (by decide) (by decide) (by decide)⟩

/- ## Claim C3: per-source failure isolation of the dashboard refresh -/

/-- Counterexample to C3 as stated: in `AdminDashboard`, a failing users
fetch blocks the two other sections even though their fetches succeeded —
the stats section stays at its initial empty value instead of the fetched
stats, and the appointments section stays empty. -/
theorem dashboard_isolation_counterexample :
    (fetchDashboardData (FetchResult.ok stats1) FetchResult.fail
        (FetchResult.ok [mkAppt "a1" "scheduled" "pending"]) adminState0).stats = none
    ∧ (none : Option DashStats) ≠ some stats1
    ∧ (fetchDashboardData (FetchResult.ok stats1) FetchResult.fail
        (FetchResult.ok [mkAppt "a1" "scheduled" "pending"]) adminState0).recentAppointments
      = [] := by
  decide

/-- Claim C3 (amended): the `AdminDashboard` refresh joins its three fetches
all-or-nothing — if any constituent fails, none of the three sections is
updated; per-source isolation holds instead in `AppointmentsList`, where
each of the three mount fetches settles into its own section independently
of the outcomes of the other two. -/
theorem dashboard_isolation_amended :
    (∀ (sr : FetchResult DashStats) (ur : FetchResult (List User))
        (ar : FetchResult (List Appointment)) (s : AdminDashState),
      (sr = FetchResult.fail ∨ ur = FetchResult.fail ∨ ar = FetchResult.fail) →
      (fetchDashboardData sr ur ar s).stats = s.stats
      ∧ (fetchDashboardData sr ur ar s).recentUsers = s.recentUsers
      ∧ (fetchDashboardData sr ur ar s).recentAppointments = s.recentAppointments)
    ∧ (∀ (ra : FetchResult (List Appointment)) (rd rp : FetchResult (List User))
        (s : ListState),
      (listMountRefresh ra rd rp s).appointments
        = (match ra with
           | FetchResult.ok l => l
           | FetchResult.fail => s.appointments)
      ∧ (listMountRefresh ra rd rp s).doctors
        = (match rd with
           | FetchResult.ok l => l
           | FetchResult.fail => s.doctors)
      ∧ (listMountRefresh ra rd rp s).patients
        = (match rp with
           | FetchResult.ok l => l
           | FetchResult.fail => s.patients)) := by
  constructor
  · intro sr ur ar s h
    cases sr <;> cases ur <;> cases ar <;>
      simp [fetchDashboardData] <;>
      rcases h with h | h | h <;> simp_all
  · intro ra rd rp s
    cases ra <;> cases rd <;> cases rp <;>
      simp [listMountRefresh, fetchAppointmentsRun, fetchDoctorsRun, fetchPatientsRun]

/-- Witness for C3's amended claim at a concrete input: the users fetch
fails while the other two succeed. -/
theorem dashboard_isolation_amended_witness :
    ((FetchResult.ok stats1 : FetchResult DashStats) = FetchResult.fail
      ∨ (FetchResult.fail : FetchResult (List User)) = FetchResult.fail
      ∨ (FetchResult.ok [mkAppt "a1" "scheduled" "pending"]
          : FetchResult (List Appointment)) = FetchResult.fail)
    ∧ ((fetchDashboardData (FetchResult.ok stats1) FetchResult.fail
          (FetchResult.ok [mkAppt "a1" "scheduled" "pending"]) adminState0).stats
        = adminState0.stats
      ∧ (fetchDashboardData (FetchResult.ok stats1) FetchResult.fail
          (FetchResult.ok [mkAppt "a1" "scheduled" "pending"]) adminState0).recentUsers
        = adminState0.recentUsers
      ∧ (fetchDashboardData (FetchResult.ok stats1) FetchResult.fail
          (FetchResult.ok [mkAppt "a1" "scheduled" "pending"]) adminState0).recentAppointments
        = adminState0.recentAppointments) :=
  ⟨Or.inr (Or.inl rfl),
   dashboard_isolation_amended.1 (FetchResult.ok stats1) FetchResult.fail
     (FetchResult.ok [mkAppt "a1" "scheduled" "pending"]) adminState0
     (Or.inr (Or.inl rfl))⟩

/- ## Claim C7: display fallback for missing or unrecognized status values -/

/-- Counterexample to C7 as stated: a missing `payment_status` is displayed
as `Unknown` by the admin dashboard badge, an unrecognized lifecycle status
is displayed as itself capitalized, and a missing lifecycle status renders
as `NaN` — none of these displays the fallback value `pending`. -/
theorem badge_fallback_counterexample :
    getPaymentStatusBadgeText none = "Unknown"
    ∧ getStatusBadgeText (some "mystery") = "Mystery"
    ∧ getStatusBadgeText none = "NaN"
    ∧ ("Unknown" : String) ≠ "pending" ∧ ("Unknown" : String) ≠ "Pending"
    ∧ ("Mystery" : String) ≠ "pending" ∧ ("Mystery" : String) ≠ "Pending"
    ∧ ("NaN" : String) ≠ "pending" ∧ ("NaN" : String) ≠ "Pending" := by
  decide

/-- Claim C7 (amended): a missing or unrecognized value falls back to the
`pending` styling for the lifecycle badge and to the neutral gray styling
for the payment badges; the displayed text falls back to `Pending` only in
the appointments-list payment badge when `payment_status` is missing or
empty — the admin dashboard payment badge displays `Unknown` there, a
missing lifecycle status renders as `NaN`, and any unrecognized non-empty
value is displayed as itself capitalized. -/
theorem badge_fallback_amended :
    (∀ s : Option String,
      s ∉ ([some "scheduled", some "completed", some "cancelled", some "pending"]
            : List (Option String)) →
      statusBadgeColor s = statusBadgeColor (some "pending"))
    ∧ (∀ p : Option String,
      p ∉ ([some "pending", some "paid", some "overdue"] : List (Option String)) →
      paymentBadgeClass p = "bg-gray-100 text-gray-800")
    ∧ getPaymentBadgeText none = "Pending"
    ∧ getPaymentBadgeText (some "") = "Pending"
    ∧ getPaymentStatusBadgeText none = "Unknown"
    ∧ getPaymentStatusBadgeText (some "") = "Unknown"
    ∧ getStatusBadgeText none = "NaN"
    ∧ (∀ s : String, s ≠ "" →
        getStatusBadgeText (some s) = jsCapitalize s
        ∧ getPaymentBadgeText (some s) = jsCapitalize s
        ∧ getPaymentStatusBadgeText (some s) = jsCapitalize s) := by
  refine ⟨?_, ?_, rfl, rfl, rfl, rfl, rfl, ?_⟩
  · intro s hs
    unfold statusBadgeColor
    split
    · exact absurd (by simp_all) hs
    · exact absurd (by simp_all) hs
    · exact absurd (by simp_all) hs
    · exact absurd (by simp_all) hs
    · rfl
  · intro p hp
    unfold paymentBadgeClass
    split
    · exact absurd (by simp_all) hp
    · exact absurd (by simp_all) hp
    · exact absurd (by simp_all) hp
    · rfl
  · intro s hs
    have hbeq : (s == "") = false := by simpa using hs
    refine ⟨rfl, ?_, ?_⟩ <;> simp [getPaymentBadgeText, getPaymentStatusBadgeText, hbeq]

/-- Witness for C7's amended claim at concrete inputs: the unrecognized
lifecycle status `mystery` takes the pending styling, and the unrecognized
payment status `comped` the gray styling. -/
theorem badge_fallback_amended_witness :
    ((some "mystery" : Option String)
        ∉ ([some "scheduled", some "completed", some "cancelled", some "pending"]
            : List (Option String)))
    ∧ statusBadgeColor (some "mystery") = statusBadgeColor (some "pending")
    ∧ ((some "comped" : Option String)
        ∉ ([some "pending", some "paid", some "overdue"] : List (Option String)))
    ∧ paymentBadgeClass (some "comped") = "bg-gray-100 text-gray-800" :=
  ⟨by decide, badge_fallback_amended.1 (some "mystery") (by decide),
   by decide, badge_fallback_amended.2.1 (some "comped") (by decide)⟩

/- ## Claim C6: the filtering view-model -/

theorem matchesDateFilter_eq_spec (dateFilter : String) (aptDate now : Instant)
    (hdf : dateFilter ∈ (["all", "today", "week", "month", "past"] : List String)) :
    matchesDateFilter dateFilter aptDate now = specDateOk dateFilter aptDate now := by
  simp only [List.mem_cons, List.not_mem_nil, or_false] at hdf
  rcases hdf with h | h | h | h | h <;> subst h <;> rfl

theorem searchOk_eq_spec (doctors patients : List User) (searchTerm : String)
    (a : Appointment) :
    (jsIncludes (jsToLower (getUserName doctors patients a.doctor_id "doctor"))
        (jsToLower searchTerm)
      || jsIncludes (jsToLower (getUserName doctors patients a.patient_id "patient"))
        (jsToLower searchTerm)
      || (match a.notes with
          | some n => jsIncludes (jsToLower n) (jsToLower searchTerm)
          | none => false))
    = specSearchOk doctors patients searchTerm a := by
  by_cases h : searchTerm = ""
  · subst h
    simp [specSearchOk, ciSubstr, jsToLower_empty, jsIncludes_empty]
  · have hbeq : (searchTerm == "") = false := by simpa using h
    simp [specSearchOk, ciSubstr, hbeq]

/-- Claim C6: for every filter state whose date filter is one of the five
documented values, the filtered list is exactly the appointments satisfying
the conjunction of the specification's search, status and date rules, in
the insertion order of the input (a sublist, no hidden sort); and at the
boundary, an appointment at today 00:00:00 matches `today` while one at
yesterday 23:59:59.000 does not. -/
theorem visible_matches_spec (doctors patients : List User)
    (appointments : List Appointment)
    (searchTerm statusFilter dateFilter : String) (now : Instant)
    (hdf : dateFilter ∈ (["all", "today", "week", "month", "past"] : List String)) :
    getFilteredAppointments doctors patients appointments searchTerm statusFilter
        dateFilter now
      = appointments.filter
          (specVisible doctors patients searchTerm statusFilter dateFilter now)
    ∧ List.Sublist
        (getFilteredAppointments doctors patients appointments searchTerm statusFilter
          dateFilter now) appointments
    ∧ (∀ t : Instant, matchesDateFilter "today" ⟨t.day, 0⟩ t = true)
    ∧ (∀ t : Instant, matchesDateFilter "today" ⟨t.day - 1, 86399000⟩ t = false) := by
  have hmain : getFilteredAppointments doctors patients appointments searchTerm
      statusFilter dateFilter now
      = appointments.filter
          (specVisible doctors patients searchTerm statusFilter dateFilter now) := by
    unfold getFilteredAppointments
    apply List.filter_congr
    intro a _
    simp only []
    rw [searchOk_eq_spec doctors patients searchTerm a,
        matchesDateFilter_eq_spec dateFilter a.appointment_date now hdf]
    rfl
  refine ⟨hmain, ?_, ?_, ?_⟩
  · rw [hmain]
    exact List.filter_sublist _
  · intro t
    simp [matchesDateFilter]
  · intro t
    simp [matchesDateFilter]

/-- Witness for C6 at a concrete input: one appointment, the `today`
filter, empty search. -/
theorem visible_matches_spec_witness :
    ("today" ∈ (["all", "today", "week", "month", "past"] : List String))
    ∧ (getFilteredAppointments [] [] [mkAppt "a1" "scheduled" "pending"] "" "all"
        "today" ⟨0, 300⟩
      = ([mkAppt "a1" "scheduled" "pending"] : List Appointment).filter
          (specVisible [] [] "" "all" "today" ⟨0, 300⟩)
      ∧ List.Sublist
          (getFilteredAppointments [] [] [mkAppt "a1" "scheduled" "pending"] "" "all"
            "today" ⟨0, 300⟩) [mkAppt "a1" "scheduled" "pending"]
      ∧ (∀ t : Instant, matchesDateFilter "today" ⟨t.day, 0⟩ t = true)
      ∧ (∀ t : Instant, matchesDateFilter "today" ⟨t.day - 1, 86399000⟩ t = false)) :=
  ⟨by decide,
   visible_matches_spec [] [] [mkAppt "a1" "scheduled" "pending"] "" "all" "today"
     ⟨0, 300⟩ (by decide)⟩

/- ## Claim C8: tallies computed from the already-filtered result -/

theorem filtered_completed_eq (doctors patients : List User)
    (appointments : List Appointment) (now : Instant) :
    getFilteredAppointments doctors patients appointments "" "completed" "all" now
      = appointments.filter (fun a => a.status == some "completed") := by
  unfold getFilteredAppointments
  apply List.filter_congr
  intro a _
  simp only []
  simp [jsToLower_empty, jsIncludes_empty, matchesDateFilter]

/-- Claim C8: the summary tallies are computed from the result of the
filtering view-model, not from the full collection; with the status filter
`completed`, the visible list is exactly the completed appointments, its
completed tally equals its length and its scheduled and cancelled tallies
are zero; in the concrete 10-appointment scenario (3 completed, 4 scheduled,
3 cancelled) the visible list has exactly 3 records and its status tally is
completed = 3 and nothing else. -/
theorem summary_from_filtered (doctors patients : List User)
    (appointments : List Appointment) (now : Instant) :
    renderedSummary doctors patients appointments "" "completed" "all" now
      = summaryStats
          (getFilteredAppointments doctors patients appointments "" "completed" "all" now)
    ∧ (getFilteredAppointments doctors patients appointments "" "completed" "all"
        now).length
      = (appointments.filter (fun a => a.status == some "completed")).length
    ∧ (summaryStats (getFilteredAppointments doctors patients appointments ""
        "completed" "all" now)).completed
      = (getFilteredAppointments doctors patients appointments "" "completed" "all"
          now).length
    ∧ (summaryStats (getFilteredAppointments doctors patients appointments ""
        "completed" "all" now)).scheduled = 0
    ∧ (summaryStats (getFilteredAppointments doctors patients appointments ""
        "completed" "all" now)).cancelled = 0
    ∧ (getFilteredAppointments [] [] tenAppointments "" "completed" "all"
        ⟨0, 0⟩).length = 3
    ∧ summaryStats (getFilteredAppointments [] [] tenAppointments "" "completed" "all"
        ⟨0, 0⟩) = ⟨0, 3, 0, 0⟩ := by
  have hvis := filtered_completed_eq doctors patients appointments now
  have hall : ∀ a ∈ getFilteredAppointments doctors patients appointments ""
      "completed" "all" now, a.status = some "completed" := by
    intro a ha
    rw [hvis] at ha
    simpa using (List.mem_filter.mp ha).2
  refine ⟨rfl, by rw [hvis], ?_, ?_, ?_, by decide, by decide⟩
  · unfold summaryStats
    simp only []
    congr 1
    apply List.filter_eq_self.mpr
    intro a ha
    simp [hall a ha]
  · unfold summaryStats
    simp only []
    rw [List.length_eq_zero]
    apply List.filter_eq_nil_iff.mpr
    intro a ha
    simp [hall a ha]
  · unfold summaryStats
    simp only []
    rw [List.length_eq_zero]
    apply List.filter_eq_nil_iff.mpr
    intro a ha
    simp [hall a ha]

/- ## Claim C9: the real-time refresh timer is fully cancelled -/

theorem clearIntervalW_shape (base : List IntervalTimer) (t p : Nat)
    (w : TimerWorld) (hlive : w.live = base ++ [⟨t, p⟩])
    (hne : ∀ iv ∈ base, iv.tid ≠ t) :
    (clearIntervalW (some t) w).live = base := by
  simp only [clearIntervalW, hlive]
  rw [List.filter_append]
  have h1 : base.filter (fun iv => iv.tid ≠ t) = base :=
    List.filter_eq_self.mpr (fun iv hiv => by simpa using hne iv hiv)
  have h2 : ([⟨t, p⟩] : List IntervalTimer).filter (fun iv => iv.tid ≠ t) = [] := by
    simp
  rw [h1, h2, List.append_nil]

theorem runModes_spec (modes : List Bool) :
    ∀ (w : TimerWorld) (tid : Option Nat) (base : List IntervalTimer),
    (∀ iv ∈ w.live, iv.tid < w.nextId) →
    w.live = base ++ optTimer tid →
    (∀ t, tid = some t → ∀ iv ∈ base, iv.tid ≠ t) →
    (∀ iv ∈ (runModes w tid modes).1.live, iv.tid < (runModes w tid modes).1.nextId)
    ∧ (runModes w tid modes).1.live = base ++ optTimer (runModes w tid modes).2
    ∧ (∀ t, (runModes w tid modes).2 = some t → ∀ iv ∈ base, iv.tid ≠ t) := by
  induction modes with
  | nil =>
      intro w tid base hfresh hshape hne
      exact ⟨hfresh, hshape, hne⟩
  | cons b bs ih =>
      intro w tid base hfresh hshape hne
      have hclean : (clearIntervalW tid w).live = base := by
        cases tid with
        | none => simpa [clearIntervalW, optTimer] using hshape
        | some t =>
            exact clearIntervalW_shape base t 30000 w
              (by simpa [optTimer] using hshape) (hne t rfl)
      have hcleanNext : (clearIntervalW tid w).nextId = w.nextId := by
        cases tid <;> rfl
      have hbasefresh : ∀ iv ∈ base, iv.tid < w.nextId := by
        intro iv hiv
        exact hfresh iv (by rw [hshape]; exact List.mem_append_left _ hiv)
      have hcleanFresh : ∀ iv ∈ (clearIntervalW tid w).live,
          iv.tid < (clearIntervalW tid w).nextId := by
        intro iv hiv
        rw [hcleanNext]
        exact hbasefresh iv (by rwa [hclean] at hiv)
      cases b with
      | false =>
          have hstep : runModes w tid (false :: bs)
              = runModes (clearIntervalW tid w) none bs := by
            simp [runModes, realtimeEffect]
          rw [hstep]
          exact ih (clearIntervalW tid w) none base hcleanFresh
            (by simp [optTimer, hclean]) (by simp)
      | true =>
          have hstep : runModes w tid (true :: bs)
              = runModes
                  ⟨(clearIntervalW tid w).nextId + 1,
                   (clearIntervalW tid w).live ++ [⟨(clearIntervalW tid w).nextId, 30000⟩]⟩
                  (some (clearIntervalW tid w).nextId) bs := by
            simp [runModes, realtimeEffect, setIntervalW]
          rw [hstep]
          apply ih _ _ base
          · intro iv hiv
            simp only [List.mem_append, List.mem_singleton] at hiv
            show iv.tid < (clearIntervalW tid w).nextId + 1
            rcases hiv with h | h
            · have := hcleanFresh iv h
              omega
            · subst h
              simp
          · simp [optTimer, hclean]
          · intro t ht iv hiv
            have htid : t = (clearIntervalW tid w).nextId := by
              simpa using ht.symm
            have := hbasefresh iv hiv
            rw [htid, hcleanNext]
            omega

theorem runModes_append (xs ys : List Bool) (w : TimerWorld) (tid : Option Nat) :
    runModes w tid (xs ++ ys)
      = runModes (runModes w tid xs).1 (runModes w tid xs).2 ys := by
  induction xs generalizing w tid with
  | nil => rfl
  | cons b bs ih =>
      simp only [List.cons_append, runModes]
      exact ih _ _

theorem runModes_single_false (w : TimerWorld) (tid : Option Nat) :
    runModes w tid [false] = (clearIntervalW tid w, none) := by
  simp [runModes, realtimeEffect]

theorem runModes_single_true (w : TimerWorld) (tid : Option Nat) :
    runModes w tid [true]
      = (⟨(clearIntervalW tid w).nextId + 1,
          (clearIntervalW tid w).live ++ [⟨(clearIntervalW tid w).nextId, 30000⟩]⟩,
         some (clearIntervalW tid w).nextId) := by
  simp [runModes, realtimeEffect, setIntervalW]

theorem clear_after_runModes (w : TimerWorld) (modes : List Bool)
    (hfresh : ∀ iv ∈ w.live, iv.tid < w.nextId) :
    (clearIntervalW (runModes w none modes).2 (runModes w none modes).1).live
      = w.live := by
  have h := runModes_spec modes w none w.live hfresh (by simp [optTimer]) (by simp)
  rcases h with ⟨_, hs, hn⟩
  cases ht : (runModes w none modes).2 with
  | none =>
      rw [ht] at hs
      simpa [clearIntervalW, optTimer] using hs
  | some t =>
      rw [ht] at hs hn
      exact clearIntervalW_shape w.live t 30000 _ (by simpa [optTimer] using hs)
        (hn t rfl)

/-- Claim C9: modelling React's effect protocol over the source effect
(`if (realTimeMode) interval = setInterval(..., 30000);
return () => clearInterval(interval)`), every run that leaves real-time
mode disabled leaves no timer of the view alive and no held interval id,
a whole mounted lifetime restores the timer world exactly (the unmount
cleanup cancels whatever was live — no orphaned timer survives), and while
enabled exactly one interval of the view is live, with the fixed 30000 ms
schedule. -/
theorem reports_timer_lifecycle (w : TimerWorld) (modes : List Bool)
    (hfresh : ∀ iv ∈ w.live, iv.tid < w.nextId) :
    (mountLifecycle w modes).live = w.live
    ∧ (∀ pre : List Bool,
        (runModes w none (pre ++ [false])).1.live = w.live
        ∧ (runModes w none (pre ++ [false])).2 = none)
    ∧ (∀ pre : List Bool, ∃ t : Nat,
        (runModes w none (pre ++ [true])).1.live = w.live ++ [⟨t, 30000⟩]
        ∧ (runModes w none (pre ++ [true])).2 = some t) := by
  refine ⟨clear_after_runModes w modes hfresh, ?_, ?_⟩
  · intro pre
    rw [runModes_append pre [false] w none, runModes_single_false]
    exact ⟨clear_after_runModes w pre hfresh, rfl⟩
  · intro pre
    rw [runModes_append pre [true] w none, runModes_single_true]
    refine ⟨(clearIntervalW (runModes w none pre).2 (runModes w none pre).1).nextId,
      ?_, rfl⟩
    rw [clear_after_runModes w pre hfresh]

/-- Witness for C9 at a concrete input: an empty timer world and the mode
history enabled-then-disabled. -/
theorem reports_timer_lifecycle_witness :
    (∀ iv ∈ (TimerWorld.mk 0 []).live, iv.tid < (TimerWorld.mk 0 []).nextId)
    ∧ ((mountLifecycle ⟨0, []⟩ [true, false]).live = (TimerWorld.mk 0 []).live
      ∧ (∀ pre : List Bool,
          (runModes ⟨0, []⟩ none (pre ++ [false])).1.live = (TimerWorld.mk 0 []).live
          ∧ (runModes ⟨0, []⟩ none (pre ++ [false])).2 = none)
      ∧ (∀ pre : List Bool, ∃ t : Nat,
          (runModes ⟨0, []⟩ none (pre ++ [true])).1.live
            = (TimerWorld.mk 0 []).live ++ [⟨t, 30000⟩]
          ∧ (runModes ⟨0, []⟩ none (pre ++ [true])).2 = some t)) :=
  ⟨by simp, reports_timer_lifecycle ⟨0, []⟩ [true, false] (by simp)⟩

end HealthcarePlatform
